import Mathlib

/-!
Verification of the FreightGuard delay-risk inference engine.

This file gives a shallow embedding of the core of the repository:

* `src/ml/predict_delay.py` — feature preparation (`prepare_features`),
  single prediction (`predict_delay`), batch prediction (`predict_batch`),
  alert threshold check (`should_trigger_alert`);
* `src/dags/delay_prediction_dag.py` — the alert-triggering decision
  (`trigger_alerts`);
* `src/utils/alerting.py` — alert creation with deduplication
  (`AlertManager.create_alert`);
* `src/ml/train_model.py` — the data-sufficiency fallback
  (`load_training_data`) and artifact persistence (`save_model`).

Machine reals are modelled as exact rationals (`ℚ`); Python `int()` is
truncation toward zero; pandas/sklearn library calls that the code treats
as opaque (the fitted classifier, the fitted scaler, `pd.to_numeric`
coercion of strings) are carried as explicit data on the inputs so every
definition stays executable.
-/

/-- A calendar timestamp, reduced to the two components the feature code
reads from it: `dt.hour` (0..23) and `dt.dayofweek` (0 = Monday .. 6 = Sunday). -/
structure Timestamp where
  hour : ℕ
  dayOfWeek : ℕ
deriving DecidableEq, Repr

/-- A raw Python value sitting in an observation's numeric field.
`num q` is a Python int/float; `str s c` is a string, where `c` records what
`pd.to_numeric(·, errors=coerce)` yields for it (`none` when it coerces to
NaN, which `fillna` then replaces).  Arithmetic on a `str` value raises
TypeError in Python regardless of `c`. -/
inductive PyVal where
  | num (q : ℚ)
  | str (s : String) (asNum : Option ℚ)
deriving DecidableEq, Repr

/-- A raw timestamp field value: either one that `pd.to_datetime` parses to
a `Timestamp`, or a malformed one on which `pd.to_datetime` raises. -/
inductive PyTime where
  | valid (t : Timestamp)
  | invalid (s : String)
deriving DecidableEq, Repr

/-- One cell of the single-row pandas DataFrame that `prepare_features`
builds: a number, a raw string, or a parsed datetime. -/
inductive Cell where
  | num (q : ℚ)
  | str (s : String)
  | time (t : Timestamp)
deriving DecidableEq, Repr

/-- A shipment observation as consumed by `DelayPredictor.predict_delay`:
a Python dict in which any key may be absent (`none`).  Fields the feature
code never reads numerically are kept as strings. -/
structure Obs where
  shipment_id : Option String := none
  origin : Option String := none
  destination : Option String := none
  current_location : Option String := none
  distance_remaining_km : Option PyVal := none
  vehicle_speed_kmph : Option PyVal := none
  weather : Option String := none
  traffic_level : Option String := none
  timestamp : Option PyTime := none
deriving DecidableEq, Repr

/-- The inference engine's state (`DelayPredictor.__init__` /
`load_model` in `src/ml/predict_delay.py`).  The fitted classifier is the
function behind `model.predict_proba(...)[0, 1]`; the fitted scaler is the
function behind `scaler.transform`.  `feature_encoders` maps a categorical
field name to the fitted `LabelEncoder.classes_` list (sorted at fit time);
`feature_columns` is the canonical column order. -/
structure Engine where
  model : Option (List Cell → ℚ)
  scaler : List Cell → List Cell
  feature_encoders : List (String × List String)
  feature_columns : List String

/-- `sklearn.LabelEncoder` semantics as used at inference
(`src/ml/predict_delay.py` lines 57-60): `transform([x])[0]` is the index of
`x` in `classes_` when `x in encoder.classes_`, and the code substitutes `0`
otherwise. -/
def encodeCat (classes : List String) (x : String) : ℕ :=
  if x ∈ classes then classes.indexOf x else 0

/-- `pd.to_numeric(·, errors=coerce).fillna(d)` applied to one field value. -/
def coerceNum (v : PyVal) (d : ℚ) : ℚ :=
  match v with
  | .num q => q
  | .str _ c => c.getD d

/-- Helper: the column contributed by an optional raw dict field. -/
def optField (name : String) (v : Option Cell) : List (String × Cell) :=
  match v with
  | none => []
  | some c => [(name, c)]

/-- The single-row DataFrame built by `DelayPredictor.prepare_features`
(`src/ml/predict_delay.py` lines 44-83) before the final column projection:
raw fields from the dict, numeric coercion with defaults 1000 / 60,
categorical encoding with fallback 0, time-derived columns (defaulting the
timestamp to the current time `now` when the field is absent), the two
constant risk scores, and the route-complexity score.  `rowCells` is the
row for an already-extracted pair of raw numeric values and an
already-parsed timestamp `ts`; `buildRow` wraps it with the exceptional
cases: a KeyError when `distance_remaining_km` or `vehicle_speed_kmph` is
absent (line 50/51 reads the column before assigning it), and a parse
error from `pd.to_datetime` on a malformed timestamp. -/
def rowCells (eng : Engine) (obs : Obs) (distRaw speedRaw : PyVal)
    (ts : Timestamp) : List (String × Cell) :=
  let dist : ℚ := coerceNum distRaw 1000
  let speed : ℚ := coerceNum speedRaw 60
  let weatherEnc : ℚ :=
    match obs.weather, eng.feature_encoders.lookup "weather" with
    | some w, some classes => (encodeCat classes w : ℚ)
    | _, _ => 0
  let trafficEnc : ℚ :=
    match obs.traffic_level, eng.feature_encoders.lookup "traffic_level" with
    | some w, some classes => (encodeCat classes w : ℚ)
    | _, _ => 0
  optField "shipment_id" (obs.shipment_id.map .str) ++
  optField "origin" (obs.origin.map .str) ++
  optField "destination" (obs.destination.map .str) ++
  optField "current_location" (obs.current_location.map .str) ++
  optField "weather" (obs.weather.map .str) ++
  optField "traffic_level" (obs.traffic_level.map .str) ++
  [("distance_remaining_km", .num dist),
   ("vehicle_speed_kmph", .num speed),
   ("weather_encoded", .num weatherEnc),
   ("traffic_level_encoded", .num trafficEnc),
   ("timestamp", .time ts),
   ("hour_of_day", .num (ts.hour : ℚ)),
   ("day_of_week", .num (ts.dayOfWeek : ℚ)),
   ("is_weekend", .num (if 5 ≤ ts.dayOfWeek then 1 else 0)),
   ("origin_risk_score", .num (1 / 10)),
   ("destination_risk_score", .num (1 / 10)),
   ("route_complexity", .num (dist / (speed + 1) / 100))]

/-- `buildRow` proper: the exception order mirrors the Python statement
order — KeyError on the distance column (line 50), then on the speed
column (line 51), then the `pd.to_datetime` parse (line 67). -/
def buildRow (eng : Engine) (obs : Obs) (now : Timestamp) :
    Except String (List (String × Cell)) :=
  match obs.distance_remaining_km with
  | none => .error "KeyError: distance_remaining_km"
  | some distRaw =>
    match obs.vehicle_speed_kmph with
    | none => .error "KeyError: vehicle_speed_kmph"
    | some speedRaw =>
      match obs.timestamp with
      | some (.invalid s) => .error ("pd.to_datetime parse error: " ++ s)
      | some (.valid t) => .ok (rowCells eng obs distRaw speedRaw t)
      | none => .ok (rowCells eng obs distRaw speedRaw now)

/-- Column access on the built row (pandas `df[col]`): the cell stored
under the first occurrence of the column name. -/
def lookupCell (row : List (String × Cell)) (c : String) : Option Cell :=
  match row with
  | [] => none
  | (k, v) :: rest => if c = k then some v else lookupCell rest c

/-- `DelayPredictor.prepare_features` (`src/ml/predict_delay.py` lines
44-90): build the row, then project onto `feature_columns`, filling any
schema column that is not a column of the row with 0 (lines 85-90). -/
def prepare_features (eng : Engine) (obs : Obs) (now : Timestamp) :
    Except String (List Cell) :=
  (buildRow eng obs now).map fun row =>
    eng.feature_columns.map fun c => (lookupCell row c).getD (.num 0)

/-- Three-tier risk classification label. -/
inductive Risk where
  | High
  | Medium
  | Low
deriving DecidableEq, Repr

/-- Risk categorization (`src/ml/predict_delay.py` lines 121-127). -/
def riskLevel (p : ℚ) : Risk :=
  if 7 / 10 ≤ p then .High
  else if 4 / 10 ≤ p then .Medium
  else .Low

/-- Python `int()` applied to a real number: truncation toward zero. -/
def pyInt (q : ℚ) : ℤ :=
  if 0 ≤ q then ⌊q⌋ else -⌊-q⌋

/-- Estimated delay minutes (`src/ml/predict_delay.py` lines 113-119):
0 unless the probability exceeds 0.5; otherwise
`int(p * 120 * min(shipment_data.get(distance_remaining_km, 1000) / 1000, 2))`
computed on the *raw* dict value — absent defaults to 1000, a string raises
TypeError (caught further up and turned into a degraded result). -/
def estimatedDelay (p : ℚ) (obs : Obs) : Except String ℤ :=
  if 1 / 2 < p then
    match obs.distance_remaining_km with
    | none => .ok (pyInt (p * 120 * min ((1000 : ℚ) / 1000) 2))
    | some (.num q) => .ok (pyInt (p * 120 * min (q / 1000) 2))
    | some (.str s _) =>
      .error ("TypeError: unsupported operand for string " ++ s)
  else .ok 0

/-- A prediction result (`src/ml/predict_delay.py` lines 129-152).  The
`prediction_timestamp` and the `features` snapshot are carried by the code
but inspected by none of the verified properties; the fields kept here are
the ones the result dictionary always contains and downstream code reads. -/
structure PredResult where
  shipment_id : Option String
  delay_probability : ℚ
  risk_level : Risk
  estimated_delay_minutes : ℤ
  model_version : String
  error : Option String
deriving DecidableEq, Repr

/-- The degraded fallback result (`src/ml/predict_delay.py` lines 144-152
and 164-172). -/
def degradedResult (sid : Option String) (e : String) : PredResult :=
  { shipment_id := sid
    delay_probability := 1 / 2
    risk_level := .Medium
    estimated_delay_minutes := 60
    model_version := "1.0"
    error := some e }

/-- The body of the `try` block of `DelayPredictor.predict_delay`
(`src/ml/predict_delay.py` lines 97-139), for an engine whose model `m`
is loaded: prepare features, scale them, ask the classifier for a
probability, derive estimated delay and risk level. -/
def predict_core (eng : Engine) (m : List Cell → ℚ) (obs : Obs)
    (now : Timestamp) : Except String PredResult :=
  match prepare_features eng obs now with
  | .error e => .error e
  | .ok features =>
    match estimatedDelay (m (eng.scaler features)) obs with
    | .error e => .error e
    | .ok est =>
      .ok
        { shipment_id := obs.shipment_id
          delay_probability := m (eng.scaler features)
          risk_level := riskLevel (m (eng.scaler features))
          estimated_delay_minutes := est
          model_version := "1.0"
          error := none }

/-- `DelayPredictor.predict_delay` (`src/ml/predict_delay.py` lines
92-152): raises ValueError when no model is loaded (before the `try`
block, so it propagates); any exception inside the `try` block is caught
and turned into the degraded result.  `recoverCore` is the
`try`/`except` wrapper: a successful core run passes through, a caught
exception becomes the degraded result. -/
def recoverCore (res : Except String PredResult) (obs : Obs) : PredResult :=
  match res with
  | .ok r => r
  | .error e => degradedResult obs.shipment_id e

def predict_delay (eng : Engine) (obs : Obs) (now : Timestamp) :
    Except String PredResult :=
  match eng.model with
  | none => Except.error "Model not loaded. Please load a trained model first."
  | some m => Except.ok (recoverCore (predict_core eng m obs now) obs)

/-- `DelayPredictor.predict_batch` (`src/ml/predict_delay.py` lines
154-174): apply `predict_delay` to each item, catching *any* exception it
raises and appending a degraded result in its place; shipment id defaults
to "unknown" in that fallback. -/
def predict_batch (eng : Engine) (obss : List Obs) (now : Timestamp) :
    List PredResult :=
  obss.map fun obs =>
    match predict_delay eng obs now with
    | .ok r => r
    | .error e => degradedResult (some (obs.shipment_id.getD "unknown")) e

/-- `DelayPredictor.should_trigger_alert` (`src/ml/predict_delay.py`
lines 176-179). -/
def should_trigger_alert (r : PredResult) (threshold : ℚ) : Bool :=
  threshold ≤ r.delay_probability

/-- A row of the `alerts` table as created by `AlertManager.create_alert`
(`src/utils/alerting.py` lines 60-72).  The INSERT names only
(shipment_id, alert_type, severity, title, message, metadata); the
remaining columns come from the table defaults of `schema.sql`.
Modelled from the spec: `schema.sql` is not part of the sources here; per
the spec an alert is created `active` and carries the triggering
timestamp, so the defaults are `is_active = true` and
`triggered_at = now`.  The free-text `message` string and the JSON
metadata blob are reduced to the two numeric components the code puts in
them (probability and estimated delay). -/
structure Alert where
  shipment_id : Option String
  alert_type : String
  severity : String
  title : String
  metadata_probability : ℚ
  metadata_estimated_delay : ℤ
  is_active : Bool
  triggered_at : ℤ
deriving DecidableEq, Repr

/-- The `alert_data` dictionary built by `trigger_alerts`
(`src/dags/delay_prediction_dag.py` lines 281-289). -/
structure AlertData where
  shipment_id : Option String
  alert_type : String
  severity : String
  title : String
  metadata_probability : ℚ
  metadata_estimated_delay : ℤ
deriving DecidableEq, Repr

/-- `src/dags/delay_prediction_dag.py` lines 281-289: the alert payload
derived from one prediction.  Python renders a missing id as the string
None inside the f-string title. -/
def alertDataOf (pred : PredResult) : AlertData :=
  { shipment_id := pred.shipment_id
    alert_type := "delay_prediction"
    severity := if 8 / 10 ≤ pred.delay_probability then "High" else "Medium"
    title := "High Delay Risk - " ++ pred.shipment_id.getD "None"
    metadata_probability := pred.delay_probability
    metadata_estimated_delay := pred.estimated_delay_minutes }

/-- The dedup query of `AlertManager.create_alert` (`src/utils/alerting.py`
lines 46-52): is there an alert with the same shipment_id and alert_type
that is still active and was triggered strictly later than
`NOW() - window`?  Times are integers (e.g. seconds); `window` is the
1-hour interval. -/
def hasActiveDuplicate (alerts : List Alert) (sid : Option String)
    (typ : String) (now window : ℤ) : Bool :=
  alerts.any fun a =>
    decide (a.shipment_id = sid) && decide (a.alert_type = typ) &&
    a.is_active && decide (now - window < a.triggered_at)

/-- `AlertManager.create_alert` (`src/utils/alerting.py` lines 35-88),
restricted to its decision logic over the alert store: if a matching
active alert inside the window exists, return `none` (the function prints
and returns False); otherwise insert and return the new row (True).
Database connectivity failures, which also return False, are outside the
embedding. -/
def create_alert (alerts : List Alert) (d : AlertData) (now window : ℤ) :
    Option Alert :=
  if hasActiveDuplicate alerts d.shipment_id d.alert_type now window then
    none
  else
    some
      { shipment_id := d.shipment_id
        alert_type := d.alert_type
        severity := d.severity
        title := d.title
        metadata_probability := d.metadata_probability
        metadata_estimated_delay := d.metadata_estimated_delay
        is_active := true
        triggered_at := now }

/-- Outcome of the per-prediction alert decision. -/
inductive AlertDecision where
  | emit (a : Alert)
  | suppressed
  | belowThreshold
deriving DecidableEq, Repr

/-- The per-prediction body of `trigger_alerts`
(`src/dags/delay_prediction_dag.py` lines 276-293): below the probability
threshold nothing happens; at or above it, `create_alert` either emits a
new alert or is suppressed by the dedup check. -/
def trigger_alert (alerts : List Alert) (pred : PredResult) (threshold : ℚ)
    (now window : ℤ) : AlertDecision :=
  if threshold ≤ pred.delay_probability then
    match create_alert alerts (alertDataOf pred) now window with
    | some a => .emit a
    | none => .suppressed
  else .belowThreshold

/-- A labeled training row as produced by the SQL query of
`load_training_data` (`src/ml/train_model.py` lines 47-68) or by the
synthetic generator.  Only the columns the verified claims inspect are
carried; the remaining columns (origin, destination, eta, ...) ride along
in the source DataFrame untouched by the sufficiency/provenance logic. -/
structure TrainingRow where
  shipment_id : String
  distance_remaining_km : ℚ
  vehicle_speed_kmph : ℚ
  weather : String
  traffic_level : String
  is_delayed : Bool
deriving DecidableEq, Repr

/-- `DelayPredictor._generate_synthetic_training_data`
(`src/ml/train_model.py` lines 84-149): produces `n_samples` rows (default
5000).  The per-row content is drawn from numpy's PRNG seeded with 42; the
embedding takes the sampled row constructor `gen` as an explicit argument
instead of modelling the PRNG, since the verified claims inspect only that
a synthetic set is produced and how its provenance is recorded. -/
def generateSyntheticTrainingData (gen : ℕ → TrainingRow)
    (n_samples : ℕ := 5000) : List TrainingRow :=
  (List.range n_samples).map gen

/-- `DelayPredictor.load_training_data` (`src/ml/train_model.py` lines
39-82): `db = none` models a database error (the `except` branch), which
falls back to synthetic data; otherwise the queried rows are used unless
fewer than 100 of them exist, in which case the synthetic set is used
instead.  `synthetic` is the (seed-fixed) output of the generator. -/
def load_training_data (synthetic : List TrainingRow)
    (db : Option (List TrainingRow)) : List TrainingRow :=
  match db with
  | none => synthetic
  | some rows => if rows.length < 100 then synthetic else rows

/-- Whether a given database outcome makes `load_training_data` train on
synthetic rather than real history. -/
def usedSyntheticData (db : Option (List TrainingRow)) : Bool :=
  match db with
  | none => true
  | some rows => decide (rows.length < 100)

/-- The canonical feature column order fixed in the trainer constructor
(`src/ml/train_model.py` lines 26-37). -/
def trainFeatureColumns : List String :=
  ["distance_remaining_km", "vehicle_speed_kmph", "weather_encoded",
   "traffic_level_encoded", "hour_of_day", "day_of_week", "is_weekend",
   "origin_risk_score", "destination_risk_score", "route_complexity"]

/-- The fitted state `train_model` leaves on the trainer
(`src/ml/train_model.py` lines 187-251): the selected classifier, the
fitted scaler and the fitted label encoders, all opaque fitted objects. -/
structure FittedModel where
  model : List Cell → ℚ
  scaler : List Cell → List Cell
  feature_encoders : List (String × List String)

/-- The persisted artifact dictionary (`src/ml/train_model.py` lines
261-268): exactly the keys `model`, `scaler`, `feature_encoders`,
`feature_columns`, `trained_at`, `version`. -/
structure ModelBundle where
  model : List Cell → ℚ
  scaler : List Cell → List Cell
  feature_encoders : List (String × List String)
  feature_columns : List String
  trained_at : Timestamp
  version : String

/-- `DelayPredictor.save_model` (`src/ml/train_model.py` lines 253-273):
the bundle is assembled from the fitted state, the constructor's
`feature_columns`, the wall-clock time, and the constant version
string "1.0". -/
def save_model (f : FittedModel) (cols : List String) (trained_at : Timestamp) :
    ModelBundle :=
  { model := f.model
    scaler := f.scaler
    feature_encoders := f.feature_encoders
    feature_columns := cols
    trained_at := trained_at
    version := "1.0" }

/-- The training pipeline `main` (`src/ml/train_model.py` lines 296-315)
from data loading to persistence, with the fitting step (grid search over
a random forest) abstracted as `fit`. -/
def training_run (fit : List TrainingRow → FittedModel)
    (synthetic : List TrainingRow) (db : Option (List TrainingRow))
    (trained_at : Timestamp) : ModelBundle :=
  save_model (fit (load_training_data synthetic db)) trainFeatureColumns trained_at

/-! ### Concrete demonstration inputs used by counterexamples and witnesses -/

/-- A stub classifier returning the constant probability `p`. -/
def demoModel (p : ℚ) : List Cell → ℚ := fun _ => p

/-- A demonstration engine whose classifier always answers `p` and whose
scaler is the identity. -/
def demoEngine (p : ℚ) : Engine :=
  { model := some (demoModel p)
    scaler := id
    feature_encoders :=
      [("weather", ["Clear", "Fog", "Rain", "Snow", "Storm"]),
       ("traffic_level", ["Heavy", "Light", "Moderate", "Very Heavy"])]
    feature_columns := trainFeatureColumns }

/-- A fully populated observation. -/
def demoObs : Obs :=
  { shipment_id := some "SHIP1"
    origin := some "Los Angeles"
    destination := some "New York"
    current_location := some "Phoenix"
    distance_remaining_km := some (.num 2000)
    vehicle_speed_kmph := some (.num 50)
    weather := some "Rain"
    traffic_level := some "Heavy"
    timestamp := some (.valid ⟨14, 2⟩) }

/-- An observation whose dict lacks `distance_remaining_km`, so feature
preparation raises KeyError inside the `try` block. -/
def failObs : Obs :=
  { shipment_id := some "S2"
    vehicle_speed_kmph := some (.num 60)
    weather := some "Rain"
    traffic_level := some "Light"
    timestamp := some (.valid ⟨9, 1⟩) }

/-- A fixed evaluation time. -/
def demoNow : Timestamp := ⟨10, 3⟩

/-! ### Shared lemmas about the inference path -/

/-- Shape of a successful `predict_core` run: the probability, risk level
and estimated delay of the result are the ones derived from the prepared
feature vector, and the error field is empty. -/
theorem predict_core_ok_shape (eng : Engine) (m : List Cell → ℚ) (obs : Obs)
    (now : Timestamp) (r : PredResult) (h : predict_core eng m obs now = .ok r) :
    ∃ fv est, prepare_features eng obs now = .ok fv ∧
      estimatedDelay (m (eng.scaler fv)) obs = .ok est ∧
      r = { shipment_id := obs.shipment_id
            delay_probability := m (eng.scaler fv)
            risk_level := riskLevel (m (eng.scaler fv))
            estimated_delay_minutes := est
            model_version := "1.0"
            error := none } := by
  unfold predict_core at h
  split at h
  · exact absurd h (by simp)
  · rename_i fv hp
    split at h
    · exact absurd h (by simp)
    · rename_i est he
      simp only [Except.ok.injEq] at h
      exact ⟨fv, est, hp, he, h.symm⟩

/-- A successful `predict_delay` is either a successful core run or a
degraded result wrapping the core failure. -/
theorem predict_delay_ok_cases (eng : Engine) (obs : Obs) (now : Timestamp)
    (r : PredResult) (h : predict_delay eng obs now = .ok r) :
    ∃ m, eng.model = some m ∧
      (predict_core eng m obs now = .ok r ∨
       ∃ e, predict_core eng m obs now = .error e ∧
         r = degradedResult obs.shipment_id e) := by
  unfold predict_delay at h
  cases hm : eng.model with
  | none => rw [hm] at h; exact absurd h (by simp)
  | some m =>
    rw [hm] at h
    simp only [Except.ok.injEq] at h
    refine ⟨m, rfl, ?_⟩
    cases hc : predict_core eng m obs now with
    | ok r0 =>
      rw [hc] at h
      simp only [recoverCore] at h
      exact Or.inl (by rw [h])
    | error e =>
      rw [hc] at h
      simp only [recoverCore] at h
      exact Or.inr ⟨e, rfl, h.symm⟩

/-- The risk tiers of `riskLevel` partition the probability line. -/
theorem riskLevel_spec (p : ℚ) :
    (riskLevel p = .High ↔ 7 / 10 ≤ p) ∧
    (riskLevel p = .Medium ↔ 4 / 10 ≤ p ∧ p < 7 / 10) ∧
    (riskLevel p = .Low ↔ p < 4 / 10) := by
  unfold riskLevel
  split_ifs with h1 h2
  · exact ⟨iff_of_true rfl h1,
      iff_of_false (by simp) (by rintro ⟨-, hlt⟩; linarith),
      iff_of_false (by simp) (by intro hlt; linarith)⟩
  · exact ⟨iff_of_false (by simp) h1,
      iff_of_true rfl ⟨h2, lt_of_not_le h1⟩,
      iff_of_false (by simp) (by intro hlt; linarith)⟩
  · exact ⟨iff_of_false (by simp) h1,
      iff_of_false (by simp) (by rintro ⟨hge, -⟩; exact h2 hge),
      iff_of_true rfl (lt_of_not_le h2)⟩

/-- C6: For every successful single-item prediction, `risk_level` is High
iff `delay_probability ≥ 0.7`, Medium iff `0.4 ≤ delay_probability < 0.7`,
and Low iff `delay_probability < 0.4`. -/
theorem risk_level_thresholds (eng : Engine) (m : List Cell → ℚ) (obs : Obs)
    (now : Timestamp) (r : PredResult)
    (h : predict_core eng m obs now = .ok r) :
    (r.risk_level = .High ↔ 7 / 10 ≤ r.delay_probability) ∧
    (r.risk_level = .Medium ↔
      4 / 10 ≤ r.delay_probability ∧ r.delay_probability < 7 / 10) ∧
    (r.risk_level = .Low ↔ r.delay_probability < 4 / 10) := by
  obtain ⟨fv, est, -, -, rfl⟩ := predict_core_ok_shape eng m obs now r h
  exact riskLevel_spec (m (eng.scaler fv))

/-- The result of the constant-0.7 classifier on the demonstration
observation (the spec's boundary example: probability exactly 0.7 is
High risk). -/
def demoHighResult : PredResult :=
  { shipment_id := some "SHIP1"
    delay_probability := 7 / 10
    risk_level := .High
    estimated_delay_minutes := 168
    model_version := "1.0"
    error := none }

theorem risk_level_thresholds_witness :
    predict_core (demoEngine (7 / 10)) (demoModel (7 / 10)) demoObs demoNow =
      .ok demoHighResult ∧
    (demoHighResult.risk_level = .High ↔
      7 / 10 ≤ demoHighResult.delay_probability) :=
  ⟨by norm_num [predict_core, prepare_features, buildRow, rowCells,
      estimatedDelay, demoEngine, demoModel, demoObs, demoNow, riskLevel,
      pyInt, min_def, Except.map, demoHighResult],
   (risk_level_thresholds (demoEngine (7 / 10)) (demoModel (7 / 10)) demoObs
     demoNow demoHighResult
     (by norm_num [predict_core, prepare_features, buildRow, rowCells,
       estimatedDelay, demoEngine, demoModel, demoObs, demoNow, riskLevel,
       pyInt, min_def, Except.map, demoHighResult])).1⟩

/-- If the probability did not exceed 0.5, a successful `estimatedDelay`
returned 0. -/
theorem estimatedDelay_of_le (p : ℚ) (obs : Obs) (est : ℤ) (hp : p ≤ 1 / 2)
    (h : estimatedDelay p obs = .ok est) : est = 0 := by
  unfold estimatedDelay at h
  rw [if_neg (not_lt.2 hp)] at h
  simpa using h.symm

/-- If the probability exceeded 0.5 and the raw distance field holds the
number `d`, a successful `estimatedDelay` returned the truncated product. -/
theorem estimatedDelay_of_gt (p : ℚ) (obs : Obs) (d : ℚ) (est : ℤ)
    (hp : 1 / 2 < p) (hd : obs.distance_remaining_km = some (.num d))
    (h : estimatedDelay p obs = .ok est) :
    est = pyInt (p * 120 * min (d / 1000) 2) := by
  unfold estimatedDelay at h
  rw [if_pos hp, hd] at h
  simpa using h.symm

/-- `pyInt` of a non-negative rational is non-negative. -/
theorem pyInt_nonneg (q : ℚ) (h : 0 ≤ q) : 0 ≤ pyInt q := by
  unfold pyInt
  rw [if_pos h]
  exact Int.floor_nonneg.2 h

/-- C3 counterexample: a degraded result produced by the engine — here for
an observation whose dict lacks `distance_remaining_km` — carries
`delay_probability = 0.5 ≤ 0.5` together with
`estimated_delay_minutes = 60 ≠ 0`, violating the claimed invariant on
engine-produced results. -/
theorem degraded_result_violates_delay_invariant :
    predict_delay (demoEngine (9 / 10)) failObs demoNow =
      .ok (degradedResult (some "S2") "KeyError: distance_remaining_km") ∧
    (degradedResult (some "S2") "KeyError: distance_remaining_km").delay_probability
      ≤ 1 / 2 ∧
    (degradedResult (some "S2") "KeyError: distance_remaining_km").estimated_delay_minutes
      ≠ 0 :=
  ⟨by norm_num [predict_delay, recoverCore, predict_core, prepare_features,
      buildRow, failObs, demoEngine, Except.map],
   by norm_num [degradedResult], by norm_num [degradedResult]⟩

/-- C3 (amended): for every result the engine returns, if the result is
not degraded (no error recorded) then `estimated_delay_minutes = 0`
whenever `delay_probability ≤ 0.5`; degraded results instead always carry
probability exactly 0.5 and estimated delay 60. -/
theorem estimated_delay_invariant (eng : Engine) (obs : Obs) (now : Timestamp)
    (r : PredResult) (h : predict_delay eng obs now = .ok r) :
    (r.error = none → r.delay_probability ≤ 1 / 2 →
      r.estimated_delay_minutes = 0) ∧
    (∀ e, r.error = some e →
      r.delay_probability = 1 / 2 ∧ r.estimated_delay_minutes = 60) := by
  obtain ⟨m, hm, hcase⟩ := predict_delay_ok_cases eng obs now r h
  rcases hcase with hok | ⟨e, hcerr, rfl⟩
  · obtain ⟨fv, est, hp, he, rfl⟩ := predict_core_ok_shape eng m obs now r hok
    constructor
    · intro _ hp2
      exact estimatedDelay_of_le _ obs est hp2 he
    · intro e hcontra
      exact absurd hcontra (by simp)
  · constructor
    · intro h0
      exact absurd h0 (by simp [degradedResult])
    · intro e2 _
      exact ⟨rfl, rfl⟩

theorem estimated_delay_invariant_witness :
    predict_delay (demoEngine (9 / 10)) failObs demoNow =
      .ok (degradedResult (some "S2") "KeyError: distance_remaining_km") ∧
    (degradedResult (some "S2") "KeyError: distance_remaining_km").delay_probability
      = 1 / 2 ∧
    (degradedResult (some "S2") "KeyError: distance_remaining_km").estimated_delay_minutes
      = 60 := by
  have hrun : predict_delay (demoEngine (9 / 10)) failObs demoNow =
      .ok (degradedResult (some "S2") "KeyError: distance_remaining_km") := by
    norm_num [predict_delay, recoverCore, predict_core, prepare_features,
      buildRow, failObs, demoEngine, Except.map]
  exact ⟨hrun,
   (estimated_delay_invariant (demoEngine (9 / 10)) failObs demoNow _ hrun).2
     "KeyError: distance_remaining_km" rfl⟩

/-- The demonstration observation with 1000 km remaining, on which
truncation and rounding of the delay estimate differ. -/
def roundObs : Obs :=
  { demoObs with distance_remaining_km := some (.num 1000) }

/-- The result the code computes on `roundObs` with a 0.63 classifier. -/
def truncResult : PredResult :=
  { shipment_id := some "SHIP1"
    delay_probability := 63 / 100
    risk_level := .Medium
    estimated_delay_minutes := 75
    model_version := "1.0"
    error := none }

/-- C4 counterexample: with probability 0.63 and 1000 km remaining the
code computes `int(0.63 * 120 * 1) = 75`, while the claimed
`round(0.63 * 120 * 1)` is 76 — the code truncates instead of rounding. -/
theorem estimated_delay_truncates_not_rounds :
    predict_core (demoEngine (63 / 100)) (demoModel (63 / 100)) roundObs demoNow =
      .ok truncResult ∧
    truncResult.estimated_delay_minutes = 75 ∧
    round ((63 / 100 : ℚ) * 120 * min ((1000 : ℚ) / 1000) 2) = 76 :=
  ⟨by norm_num [predict_core, prepare_features, buildRow, rowCells,
      estimatedDelay, demoEngine, demoModel, demoObs, demoNow, riskLevel,
      pyInt, min_def, Except.map, roundObs, truncResult],
   rfl,
   by rw [round_eq]; norm_num [min_def]⟩

/-- C4 (amended): for a successful single prediction whose raw distance
field holds the number `d`, the estimate is 0 when the probability is at
most 0.5 and otherwise Python `int` truncation (not rounding) of
`p * 120 * min(d / 1000, 2)`; it is non-negative whenever `d ≥ 0`. -/
theorem estimated_delay_formula (eng : Engine) (m : List Cell → ℚ) (obs : Obs)
    (now : Timestamp) (r : PredResult) (d : ℚ)
    (h : predict_core eng m obs now = .ok r)
    (hd : obs.distance_remaining_km = some (.num d)) :
    (r.delay_probability ≤ 1 / 2 → r.estimated_delay_minutes = 0) ∧
    (1 / 2 < r.delay_probability →
      r.estimated_delay_minutes =
        pyInt (r.delay_probability * 120 * min (d / 1000) 2)) ∧
    (0 ≤ d → 0 ≤ r.estimated_delay_minutes) := by
  obtain ⟨fv, est, hp, he, rfl⟩ := predict_core_ok_shape eng m obs now r h
  refine ⟨fun hp2 => estimatedDelay_of_le _ obs est hp2 he,
    fun hp2 => estimatedDelay_of_gt _ obs d est hp2 hd he, fun hd0 => ?_⟩
  rcases le_or_lt (m (eng.scaler fv)) (1 / 2) with hle | hgt
  · have h0 : est = 0 := estimatedDelay_of_le _ obs est hle he
    simp [h0]
  · have hform := estimatedDelay_of_gt _ obs d est hgt hd he
    have hq : (0 : ℚ) ≤ m (eng.scaler fv) * 120 * min (d / 1000) 2 := by
      have h1 : (0 : ℚ) ≤ m (eng.scaler fv) := by linarith
      have h2 : (0 : ℚ) ≤ min (d / 1000) 2 :=
        le_min (by positivity) (by norm_num)
      positivity
    calc (0 : ℤ) ≤ pyInt (m (eng.scaler fv) * 120 * min (d / 1000) 2) :=
          pyInt_nonneg _ hq
      _ = _ := hform.symm

/-- The spec's worked example: probability 0.9 with 2000 km remaining
gives distance factor 2 and an estimate of 216 minutes. -/
def demoResult216 : PredResult :=
  { shipment_id := some "SHIP1"
    delay_probability := 9 / 10
    risk_level := .High
    estimated_delay_minutes := 216
    model_version := "1.0"
    error := none }

theorem estimated_delay_formula_witness :
    predict_core (demoEngine (9 / 10)) (demoModel (9 / 10)) demoObs demoNow =
      .ok demoResult216 ∧
    demoResult216.estimated_delay_minutes =
      pyInt (demoResult216.delay_probability * 120 * min ((2000 : ℚ) / 1000) 2) ∧
    pyInt ((9 / 10 : ℚ) * 120 * min ((2000 : ℚ) / 1000) 2) = 216 := by
  have hrun : predict_core (demoEngine (9 / 10)) (demoModel (9 / 10)) demoObs
      demoNow = .ok demoResult216 := by
    norm_num [predict_core, prepare_features, buildRow, rowCells,
      estimatedDelay, demoEngine, demoModel, demoObs, demoNow, riskLevel,
      pyInt, min_def, Except.map, demoResult216]
  have H := estimated_delay_formula (demoEngine (9 / 10)) (demoModel (9 / 10))
    demoObs demoNow demoResult216 2000 hrun rfl
  exact ⟨hrun, H.2.1 (by norm_num [demoResult216]),
    by norm_num [pyInt, min_def]⟩

/-- C1: batch prediction never raises and returns exactly one result per
input, in input order: the i-th output is determined by the i-th input —
it is the i-th item's `predict_delay` output when that returns, and a
degraded result wrapping the raised error otherwise; in particular any
item whose core prediction fails yields the degraded result with
probability 0.5, Medium risk, 60 minutes and the error recorded, while
the other items are unaffected. -/
theorem predict_batch_isolates_item_failures (eng : Engine) (obss : List Obs)
    (now : Timestamp) :
    (predict_batch eng obss now).length = obss.length ∧
    ∀ i (h : i < obss.length) (h2 : i < (predict_batch eng obss now).length),
      (∀ r, predict_delay eng (obss.get ⟨i, h⟩) now = .ok r →
        (predict_batch eng obss now).get ⟨i, h2⟩ = r) ∧
      (∀ e, predict_delay eng (obss.get ⟨i, h⟩) now = .error e →
        (predict_batch eng obss now).get ⟨i, h2⟩ =
          degradedResult (some ((obss.get ⟨i, h⟩).shipment_id.getD "unknown")) e) ∧
      (∀ m e, eng.model = some m →
        predict_core eng m (obss.get ⟨i, h⟩) now = .error e →
        ((predict_batch eng obss now).get ⟨i, h2⟩).delay_probability = 1 / 2 ∧
        ((predict_batch eng obss now).get ⟨i, h2⟩).risk_level = .Medium ∧
        ((predict_batch eng obss now).get ⟨i, h2⟩).estimated_delay_minutes = 60 ∧
        ((predict_batch eng obss now).get ⟨i, h2⟩).error = some e) := by
  constructor
  · simp [predict_batch]
  · intro i h h2
    have hget : (predict_batch eng obss now).get ⟨i, h2⟩ =
        (match predict_delay eng (obss.get ⟨i, h⟩) now with
         | .ok r => r
         | .error e =>
           degradedResult (some ((obss.get ⟨i, h⟩).shipment_id.getD "unknown")) e) := by
      simp [predict_batch, List.getElem_map]
    refine ⟨?_, ?_, ?_⟩
    · intro r hr
      rw [hget, hr]
    · intro e he
      rw [hget, he]
    · intro m e hm hcore
      have hdel : predict_delay eng (obss.get ⟨i, h⟩) now =
          .ok (degradedResult (obss.get ⟨i, h⟩).shipment_id e) := by
        simp only [predict_delay, hm, hcore, recoverCore]
      rw [hget, hdel]
      exact ⟨rfl, rfl, rfl, rfl⟩

theorem predict_batch_isolates_item_failures_witness :
    (predict_batch (demoEngine (9 / 10)) [demoObs, failObs] demoNow).length = 2 ∧
    ((predict_batch (demoEngine (9 / 10)) [demoObs, failObs] demoNow).get
        ⟨1, by simp [predict_batch]⟩).delay_probability = 1 / 2 ∧
    ((predict_batch (demoEngine (9 / 10)) [demoObs, failObs] demoNow).get
        ⟨1, by simp [predict_batch]⟩).risk_level = .Medium ∧
    ((predict_batch (demoEngine (9 / 10)) [demoObs, failObs] demoNow).get
        ⟨1, by simp [predict_batch]⟩).estimated_delay_minutes = 60 ∧
    ((predict_batch (demoEngine (9 / 10)) [demoObs, failObs] demoNow).get
        ⟨1, by simp [predict_batch]⟩).error =
      some "KeyError: distance_remaining_km" := by
  have H := predict_batch_isolates_item_failures (demoEngine (9 / 10))
    [demoObs, failObs] demoNow
  have hcore : predict_core (demoEngine (9 / 10)) (demoModel (9 / 10)) failObs
      demoNow = .error "KeyError: distance_remaining_km" := by
    norm_num [predict_core, prepare_features, buildRow, failObs, Except.map]
  have h3 := (H.2 1 (by norm_num) (by simp [predict_batch])).2.2
    (demoModel (9 / 10)) "KeyError: distance_remaining_km" rfl hcore
  exact ⟨H.1, h3.1, h3.2.1, h3.2.2.1, h3.2.2.2⟩

/-- An engine on which no model has been loaded. -/
def notReadyEngine : Engine :=
  { model := none, scaler := id, feature_encoders := [], feature_columns := [] }

/-- C2 counterexample: a batch prediction on an engine with no loaded
model does not propagate the not-ready error — it returns normally, with
a degraded result for the item. -/
theorem batch_swallows_not_ready :
    predict_batch notReadyEngine [demoObs] demoNow =
      [degradedResult (some "SHIP1")
        "Model not loaded. Please load a trained model first."] := rfl

/-- C2 (amended): with no loaded model, the single-item prediction fails
with the ValueError propagated to its caller; the batch prediction,
however, catches that error per item and returns a degraded result
(probability 0.5, Medium, 60 minutes, error set) for every item instead
of propagating it. -/
theorem engine_not_ready_behavior (eng : Engine) (obs : Obs) (obss : List Obs)
    (now : Timestamp) (h : eng.model = none) :
    predict_delay eng obs now =
      .error "Model not loaded. Please load a trained model first." ∧
    (predict_batch eng obss now).length = obss.length ∧
    (∀ i (hi : i < obss.length) (h2 : i < (predict_batch eng obss now).length),
      (predict_batch eng obss now).get ⟨i, h2⟩ =
        degradedResult (some ((obss.get ⟨i, hi⟩).shipment_id.getD "unknown"))
          "Model not loaded. Please load a trained model first.") := by
  have hone : ∀ o : Obs, predict_delay eng o now =
      .error "Model not loaded. Please load a trained model first." := by
    intro o
    unfold predict_delay
    rw [h]
  refine ⟨hone obs, by simp [predict_batch], ?_⟩
  intro i hi h2
  have hget : (predict_batch eng obss now).get ⟨i, h2⟩ =
      (match predict_delay eng (obss.get ⟨i, hi⟩) now with
       | .ok r => r
       | .error e =>
         degradedResult (some ((obss.get ⟨i, hi⟩).shipment_id.getD "unknown")) e) := by
    simp [predict_batch, List.getElem_map]
  rw [hget, hone (obss.get ⟨i, hi⟩)]

theorem engine_not_ready_behavior_witness :
    notReadyEngine.model = none ∧
    predict_delay notReadyEngine demoObs demoNow =
      .error "Model not loaded. Please load a trained model first." ∧
    (predict_batch notReadyEngine [demoObs] demoNow).length = 1 :=
  ⟨rfl,
   (engine_not_ready_behavior notReadyEngine demoObs [demoObs] demoNow rfl).1,
   (engine_not_ready_behavior notReadyEngine demoObs [demoObs] demoNow rfl).2.1⟩

/-- C7 counterexample: fallback code 0 is not reserved for out-of-domain
values — the first class of the trained domain also encodes to 0.  With
the trained weather domain, the in-domain value Clear encodes to 0. -/
theorem first_class_encodes_to_zero :
    "Clear" ∈ ["Clear", "Fog", "Rain", "Snow", "Storm"] ∧
    encodeCat ["Clear", "Fog", "Rain", "Snow", "Storm"] "Clear" = 0 :=
  ⟨by decide, by decide⟩

/-- C7 (amended): encoding through the table is total — a value outside
the trained domain encodes to the fallback code 0, and an in-domain value
encodes to its index in the trained class list; consequently 0 is not
reserved for out-of-domain values, since the first trained class also
encodes to 0. -/
theorem encode_total_with_fallback (classes : List String) (x : String) :
    (x ∉ classes → encodeCat classes x = 0) ∧
    (x ∈ classes → encodeCat classes x = classes.indexOf x) ∧
    (∀ rest, encodeCat (x :: rest) x = 0) := by
  refine ⟨fun h => ?_, fun h => ?_, fun rest => ?_⟩
  · unfold encodeCat
    rw [if_neg h]
  · unfold encodeCat
    rw [if_pos h]
  · unfold encodeCat
    rw [if_pos (List.mem_cons_self x rest), List.indexOf_cons_self]

theorem encode_total_with_fallback_witness :
    "Monsoon" ∉ ["Clear", "Fog", "Rain", "Snow", "Storm"] ∧
    encodeCat ["Clear", "Fog", "Rain", "Snow", "Storm"] "Monsoon" = 0 := by
  have hnot : "Monsoon" ∉ ["Clear", "Fog", "Rain", "Snow", "Storm"] := by decide
  exact ⟨hnot,
    (encode_total_with_fallback ["Clear", "Fog", "Rain", "Snow", "Storm"]
      "Monsoon").1 hnot⟩

/-- A column that is absent from the row looks up to `none`. -/
theorem lookupCell_eq_none_of_not_mem (row : List (String × Cell))
    (c : String) (h : c ∉ row.map Prod.fst) : lookupCell row c = none := by
  induction row with
  | nil => rfl
  | cons hd tl ih =>
    obtain ⟨k, v⟩ := hd
    simp only [List.map_cons, List.mem_cons, not_or] at h
    simp only [lookupCell, if_neg h.1]
    exact ih h.2

/-- C8: whenever feature preparation succeeds, the produced vector has
exactly one entry per schema column, in schema order: its i-th entry is
the computed row's cell for the i-th schema column, and any schema column
that is not among the computed row columns is filled with 0. -/
theorem feature_vector_schema_shape (eng : Engine) (obs : Obs)
    (now : Timestamp) (row : List (String × Cell)) (v : List Cell)
    (hrow : buildRow eng obs now = .ok row)
    (hv : prepare_features eng obs now = .ok v) :
    v.length = eng.feature_columns.length ∧
    ∀ i (h : i < eng.feature_columns.length) (h2 : i < v.length),
      v.get ⟨i, h2⟩ =
        (lookupCell row (eng.feature_columns.get ⟨i, h⟩)).getD (.num 0) ∧
      (eng.feature_columns.get ⟨i, h⟩ ∉ row.map Prod.fst →
        v.get ⟨i, h2⟩ = .num 0) := by
  unfold prepare_features at hv
  rw [hrow] at hv
  simp only [Except.map, Except.ok.injEq] at hv
  subst hv
  constructor
  · simp
  · intro i h h2
    constructor
    · simp
    · intro hnot
      have hn : lookupCell row (eng.feature_columns.get ⟨i, h⟩) = none :=
        lookupCell_eq_none_of_not_mem row _ hnot
      simp only [List.get_eq_getElem] at hn
      simp [hn]

/-- An engine whose schema names a column the feature code never
computes, to exercise the fill-with-0 branch. -/
def gapEngine : Engine :=
  { demoEngine (1 / 2) with feature_columns := ["hour_of_day", "extra_feature"] }

theorem feature_vector_schema_shape_witness :
    prepare_features gapEngine demoObs demoNow = .ok [.num 14, .num 0] ∧
    ([Cell.num 14, Cell.num 0] : List Cell).length =
      gapEngine.feature_columns.length ∧
    ([Cell.num 14, Cell.num 0] : List Cell).get ⟨1, by norm_num⟩ = .num 0 := by
  have hrow : buildRow gapEngine demoObs demoNow =
      .ok (rowCells gapEngine demoObs (.num 2000) (.num 50) ⟨14, 2⟩) := rfl
  have hv : prepare_features gapEngine demoObs demoNow = .ok [.num 14, .num 0] := rfl
  have H := feature_vector_schema_shape gapEngine demoObs demoNow _ _ hrow hv
  have hnot : ("extra_feature" : String) ∉
      (rowCells gapEngine demoObs (.num 2000) (.num 50) ⟨14, 2⟩).map Prod.fst := by
    simp [rowCells, optField, demoObs, gapEngine, demoEngine]
  exact ⟨hv, H.1, (H.2 1 (by norm_num [gapEngine]) (by norm_num)).2 hnot⟩

/-- The engine used for the wall-clock counterexample: its schema is just
the hour-of-day column. -/
def hourEngine : Engine :=
  { model := some (demoModel (1 / 2)), scaler := id, feature_encoders := [],
    feature_columns := ["hour_of_day"] }

/-- An observation whose dict has no timestamp key. -/
def noTimestampObs : Obs :=
  { shipment_id := some "S3"
    distance_remaining_km := some (.num 500)
    vehicle_speed_kmph := some (.num 60)
    weather := some "Rain"
    traffic_level := some "Light" }

/-- C9 counterexample: with the timestamp field absent, the identical
observation, schema and encoders produce different feature vectors at two
different wall-clock times — the derived time features come from hidden
state (the current time), so feature building is not deterministic in its
declared inputs. -/
theorem feature_vector_depends_on_wall_clock :
    prepare_features hourEngine noTimestampObs ⟨8, 0⟩ = .ok [.num 8] ∧
    prepare_features hourEngine noTimestampObs ⟨9, 0⟩ = .ok [.num 9] ∧
    ([Cell.num 8] : List Cell) ≠ [Cell.num 9] := by
  exact ⟨rfl, rfl, by norm_num⟩

/-- C9 (amended): feature building is deterministic in the observation,
schema, encoders and current time; moreover, whenever the observation
carries a timestamp field, the current time is irrelevant — two calls at
different times agree.  Only observations that omit the timestamp depend
on the wall clock. -/
theorem prepare_features_time_dependence (eng : Engine) (obs : Obs)
    (pt : PyTime) (now1 now2 : Timestamp) (h : obs.timestamp = some pt) :
    prepare_features eng obs now1 = prepare_features eng obs now2 := by
  cases pt with
  | valid t =>
    cases hd : obs.distance_remaining_km <;>
      cases hs : obs.vehicle_speed_kmph <;>
        simp [prepare_features, buildRow, h, hd, hs]
  | invalid s =>
    cases hd : obs.distance_remaining_km <;>
      cases hs : obs.vehicle_speed_kmph <;>
        simp [prepare_features, buildRow, h, hd, hs]

theorem prepare_features_time_dependence_witness :
    demoObs.timestamp = some (.valid ⟨14, 2⟩) ∧
    prepare_features (demoEngine (1 / 2)) demoObs ⟨0, 0⟩ =
      prepare_features (demoEngine (1 / 2)) demoObs ⟨23, 6⟩ :=
  ⟨rfl,
   prepare_features_time_dependence (demoEngine (1 / 2)) demoObs
     (.valid ⟨14, 2⟩) ⟨0, 0⟩ ⟨23, 6⟩ rfl⟩

/-- The alert row that `create_alert` inserts for a prediction passing the
threshold at decision time `now`. -/
def emittedAlert (pred : PredResult) (now : ℤ) : Alert :=
  { shipment_id := pred.shipment_id
    alert_type := "delay_prediction"
    severity := if 8 / 10 ≤ pred.delay_probability then "High" else "Medium"
    title := "High Delay Risk - " ++ pred.shipment_id.getD "None"
    metadata_probability := pred.delay_probability
    metadata_estimated_delay := pred.estimated_delay_minutes
    is_active := true
    triggered_at := now }

/-- Closed form of the per-prediction alert decision. -/
theorem trigger_alert_eq (alerts : List Alert) (pred : PredResult)
    (threshold : ℚ) (now window : ℤ) :
    trigger_alert alerts pred threshold now window =
      if threshold ≤ pred.delay_probability then
        (if hasActiveDuplicate alerts pred.shipment_id "delay_prediction"
            now window
         then .suppressed else .emit (emittedAlert pred now))
      else .belowThreshold := by
  by_cases hp : threshold ≤ pred.delay_probability
  · cases hdup : hasActiveDuplicate alerts pred.shipment_id "delay_prediction"
      now window
    · simp [trigger_alert, create_alert, alertDataOf, emittedAlert, hdup, hp]
    · simp [trigger_alert, create_alert, alertDataOf, hdup, hp]
  · simp [trigger_alert, hp]

/-- C5: the decision emits a new alert iff the probability reaches the
threshold and no active alert with the same (shipment_id, alert_type) was
triggered inside the dedup window; an above-threshold trigger with such
an active duplicate is suppressed; below the threshold nothing is
decided.  An emitted alert is active, typed `delay_prediction`, stamped
with the decision time — and once it is in the store, any further
above-threshold trigger for the same shipment inside the window is
suppressed, so at most one active alert per key arises in the window. -/
theorem alert_emit_iff_threshold_and_no_dup (alerts : List Alert)
    (pred : PredResult) (threshold : ℚ) (now window : ℤ) :
    ((∃ a, trigger_alert alerts pred threshold now window = .emit a) ↔
      threshold ≤ pred.delay_probability ∧
      hasActiveDuplicate alerts pred.shipment_id "delay_prediction" now window
        = false) ∧
    (hasActiveDuplicate alerts pred.shipment_id "delay_prediction" now window
        = true →
      threshold ≤ pred.delay_probability →
      trigger_alert alerts pred threshold now window = .suppressed) ∧
    (pred.delay_probability < threshold →
      trigger_alert alerts pred threshold now window = .belowThreshold) ∧
    (∀ a, trigger_alert alerts pred threshold now window = .emit a →
      a.is_active = true ∧ a.triggered_at = now ∧
      a.shipment_id = pred.shipment_id ∧ a.alert_type = "delay_prediction" ∧
      ∀ pred2 threshold2 now2,
        pred2.shipment_id = pred.shipment_id →
        threshold2 ≤ pred2.delay_probability →
        now2 - window < now →
        trigger_alert (a :: alerts) pred2 threshold2 now2 window
          = .suppressed) := by
  have key := trigger_alert_eq alerts pred threshold now window
  refine ⟨?_, ?_, ?_, ?_⟩
  · constructor
    · rintro ⟨a, ha⟩
      rw [key] at ha
      by_cases hp : threshold ≤ pred.delay_probability
      · rw [if_pos hp] at ha
        cases hdup : hasActiveDuplicate alerts pred.shipment_id
          "delay_prediction" now window
        · exact ⟨hp, rfl⟩
        · rw [hdup] at ha
          exact absurd ha (by simp)
      · rw [if_neg hp] at ha
        exact absurd ha (by simp)
    · rintro ⟨hp, hdup⟩
      refine ⟨emittedAlert pred now, ?_⟩
      rw [key, if_pos hp, hdup]
      simp
  · intro hdup hp
    rw [key, if_pos hp, hdup]
    simp
  · intro hp
    rw [key, if_neg (not_le.2 hp)]
  · intro a ha
    rw [key] at ha
    by_cases hp : threshold ≤ pred.delay_probability
    · rw [if_pos hp] at ha
      cases hdup : hasActiveDuplicate alerts pred.shipment_id
        "delay_prediction" now window
      · rw [hdup] at ha
        simp only [if_neg Bool.false_ne_true, AlertDecision.emit.injEq] at ha
        subst ha
        refine ⟨rfl, rfl, rfl, rfl, ?_⟩
        intro pred2 threshold2 now2 hsid hp2 hlt
        have hdup2 : hasActiveDuplicate (emittedAlert pred now :: alerts)
            pred2.shipment_id "delay_prediction" now2 window = true := by
          unfold hasActiveDuplicate
          apply List.any_eq_true.mpr
          refine ⟨emittedAlert pred now, List.mem_cons_self _ _, ?_⟩
          simp [emittedAlert, hsid, hlt]
        rw [trigger_alert_eq, if_pos hp2, hdup2]
        simp
      · rw [hdup] at ha
        exact absurd ha (by simp)
    · rw [if_neg hp] at ha
      exact absurd ha (by simp)

/-- A high-risk prediction used by the alert witness. -/
def demoPredHigh : PredResult :=
  { shipment_id := some "S1"
    delay_probability := 9 / 10
    risk_level := .High
    estimated_delay_minutes := 216
    model_version := "1.0"
    error := none }

theorem alert_emit_iff_threshold_and_no_dup_witness :
    trigger_alert [] demoPredHigh (7 / 10) 100 3600 =
      .emit (emittedAlert demoPredHigh 100) ∧
    (emittedAlert demoPredHigh 100).is_active = true ∧
    trigger_alert [emittedAlert demoPredHigh 100] demoPredHigh (7 / 10) 200
      3600 = .suppressed := by
  have hemit : trigger_alert [] demoPredHigh (7 / 10) 100 3600 =
      .emit (emittedAlert demoPredHigh 100) := by
    rw [trigger_alert_eq]
    norm_num [hasActiveDuplicate, demoPredHigh]
  have h4 := (alert_emit_iff_threshold_and_no_dup [] demoPredHigh (7 / 10)
    100 3600).2.2.2 (emittedAlert demoPredHigh 100) hemit
  exact ⟨hemit, h4.1,
    h4.2.2.2.2 demoPredHigh (7 / 10) 200 rfl (by norm_num [demoPredHigh])
      (by norm_num)⟩

/-- A concrete real training row. -/
def demoRow : TrainingRow :=
  { shipment_id := "R1"
    distance_remaining_km := 500
    vehicle_speed_kmph := 60
    weather := "Clear"
    traffic_level := "Light"
    is_delayed := false }

/-- A concrete fitted state. -/
def demoFit : FittedModel :=
  { model := demoModel (1 / 2), scaler := id, feature_encoders := [] }

/-- C10 counterexample: a run that falls back to synthetic data (an
insufficient 0-row history) and a run that trains on 100 real rows both
persist version "1.0", and — for a fitting procedure landing on the same
estimator — literally identical bundles: nothing in the persisted
artifact records the synthetic-vs-real choice. -/
theorem synthetic_provenance_conflated :
    usedSyntheticData (some []) = true ∧
    usedSyntheticData (some (List.replicate 100 demoRow)) = false ∧
    training_run (fun _ => demoFit)
        (generateSyntheticTrainingData (fun _ => demoRow)) (some []) demoNow =
      training_run (fun _ => demoFit)
        (generateSyntheticTrainingData (fun _ => demoRow))
        (some (List.replicate 100 demoRow)) demoNow :=
  ⟨rfl, by norm_num [usedSyntheticData], rfl⟩

/-- C10 (amended): when the labeled history has fewer than the minimum
100 rows (or the query fails) training proceeds on the synthesized set
instead of failing; but the persisted artifact does not record that
choice — its version marker is the constant "1.0" whatever the data
source was, and no bundle field carries the synthetic-vs-real flag. -/
theorem synthetic_fallback_and_constant_version :
    (∀ (synthetic rows : List TrainingRow), rows.length < 100 →
      load_training_data synthetic (some rows) = synthetic) ∧
    (∀ synthetic : List TrainingRow,
      load_training_data synthetic none = synthetic) ∧
    (∀ (f : FittedModel) (cols : List String) (t : Timestamp),
      (save_model f cols t).version = "1.0") := by
  refine ⟨fun synthetic rows h => ?_, fun synthetic => rfl,
    fun f cols t => rfl⟩
  simp only [load_training_data, if_pos h]

theorem synthetic_fallback_and_constant_version_witness :
    ([demoRow] : List TrainingRow).length < 100 ∧
    load_training_data (generateSyntheticTrainingData (fun _ => demoRow))
        (some [demoRow]) =
      generateSyntheticTrainingData (fun _ => demoRow) ∧
    (save_model demoFit trainFeatureColumns demoNow).version = "1.0" :=
  ⟨by norm_num,
   (synthetic_fallback_and_constant_version).1 _ [demoRow] (by norm_num),
   (synthetic_fallback_and_constant_version).2.2 demoFit trainFeatureColumns
     demoNow⟩
